import Mathlib

/-!
Verification of the allocation/ownership utility layer of the engine
(js/public/Utility.h): the OOM fault injector and the gated allocator
facade (js_malloc, js_calloc, js_realloc), the overflow-checked POD bulk
allocators (js_pod_malloc, js_pod_calloc), the typed construction and
destruction helpers (JS_NEW_BODY / js_new, js_delete, js_delete_poison),
the scoped ownership wrappers, the hash scrambler (ScrambleHashCode) and
the debug pointer-poisoning helpers (PoisonPtr, IsPoisonedPtr).

Machine integers are modelled as Nat with explicit reduction modulo
2 ^ 32 (uint32_t) or modulo 2 ^ w for a w-bit size_t, so that unsigned
wraparound is represented faithfully.
-/

/-! ## Sentinel byte patterns (Utility.h lines 42-49 and line 351) -/

/-- Pattern for fresh nursery memory, source line 42. -/
def JS_FRESH_NURSERY_PATTERN : Nat := 0x2F

/-- Pattern for swept nursery memory, source line 43. -/
def JS_SWEPT_NURSERY_PATTERN : Nat := 0x2B

/-- Pattern for allocated nursery memory, source line 44. -/
def JS_ALLOCATED_NURSERY_PATTERN : Nat := 0x2D

/-- Pattern for fresh tenured memory, source line 45. -/
def JS_FRESH_TENURED_PATTERN : Nat := 0x4F

/-- Pattern for swept tenured memory, source line 46. -/
def JS_SWEPT_TENURED_PATTERN : Nat := 0x4B

/-- Pattern for allocated tenured memory, source line 47. -/
def JS_ALLOCATED_TENURED_PATTERN : Nat := 0x4D

/-- Pattern for swept code memory, source line 48. -/
def JS_SWEPT_CODE_PATTERN : Nat := 0x3b

/-- Pattern for swept frame memory, source line 49. -/
def JS_SWEPT_FRAME_PATTERN : Nat := 0x5b

/-- The literal byte written by js_delete_poison (source line 351:
memset(p, 0x3B, sizeof(T))). -/
def jsDeletePoisonByte : Nat := 0x3B

/-! ## OOM fault injector and gated allocator facade (lines 79-124)

OOM_counter and OOM_maxAllocations are process-wide uint32_t values;
JS_OOM_POSSIBLY_FAIL pre-increments the counter (with 32-bit wraparound)
and takes the return-nullptr branch when the new counter exceeds the
threshold.  Each gated allocation function runs this check first and
forwards the request to the backend allocator only when the check passes.
The second component of each result records the request forwarded to the
backend (none means the function returned nullptr without calling the
backend). -/

/-- The two process-wide uint32_t fault-injector variables, source
lines 79-80. -/
structure OOMState where
  counter : Nat
  maxAllocations : Nat
deriving DecidableEq

/-- JS_OOM_POSSIBLY_FAIL (source lines 89-96): pre-increment OOM_counter
as a uint32_t, then fail (second component false) when the new counter
exceeds OOM_maxAllocations. -/
def oomCheck (s : OOMState) : OOMState × Bool :=
  let c := (s.counter + 1) % 2 ^ 32
  if c > s.maxAllocations then (⟨c, s.maxAllocations⟩, false)
  else (⟨c, s.maxAllocations⟩, true)

/-- js_malloc (source lines 102-106): run the injector check, then
forward the byte count to malloc.  The second component is the request
forwarded to the backend, none when the injector made the function
return nullptr first. -/
def js_malloc (s : OOMState) (bytes : Nat) : OOMState × Option Nat :=
  match oomCheck s with
  | (s1, true) => (s1, some bytes)
  | (s1, false) => (s1, none)

/-- js_calloc, one-argument overload (source lines 108-112): gated
forward of calloc(bytes, 1). -/
def js_calloc (s : OOMState) (bytes : Nat) : OOMState × Option (Nat × Nat) :=
  match oomCheck s with
  | (s1, true) => (s1, some (bytes, 1))
  | (s1, false) => (s1, none)

/-- js_calloc, two-argument overload (source lines 114-118): gated
forward of calloc(nmemb, size). -/
def js_calloc2 (s : OOMState) (nmemb size : Nat) : OOMState × Option (Nat × Nat) :=
  match oomCheck s with
  | (s1, true) => (s1, some (nmemb, size))
  | (s1, false) => (s1, none)

/-- js_realloc (source lines 120-124): gated forward of
realloc(p, bytes). -/
def js_realloc (s : OOMState) (p bytes : Nat) : OOMState × Option (Nat × Nat) :=
  match oomCheck s with
  | (s1, true) => (s1, some (p, bytes))
  | (s1, false) => (s1, none)

/-- Injector state after n sequential gated attempts (every gated
allocation performs exactly the oomCheck state update). -/
def oomRun : Nat → OOMState → OOMState
  | 0, s => s
  | n + 1, s => (oomCheck (oomRun n s)).1

/-- Whether the (i+1)-th sequential gated attempt passes the injector
check, starting from counter 0 with threshold N. -/
def oomAttempt (N i : Nat) : Bool :=
  (oomCheck (oomRun i ⟨0, N⟩)).2

/-! ## POD bulk allocators (lines 370-386)

js_pod_malloc(numElems) and js_pod_calloc(numElems) reject the request
without calling the backend when numElems has a bit in
mozilla::tl::MulOverflowMask<sizeof(T)>::value, and otherwise forward
numElems * sizeof(T) bytes (size_t arithmetic) to js_malloc or js_calloc.
The result below is the byte request forwarded to the backend, none when
the overflow check rejected the request. -/

/-- Modelled from the spec: mozilla::tl::MulOverflowMask comes from
mfbt/TemplateLib.h, which is not under src/.  The spec says the element
count is checked so that a multiplication by size_of(T) that would
overflow the platform size type fails without calling the facade; for a
w-bit size type the mask is the complement of the all-ones size type
value shifted right by the ceiling log2 of the element size, that is the
top ceil(log2 s) bits of the w-bit word. -/
def MulOverflowMask (w s : Nat) : Nat :=
  (2 ^ w - 1) - ((2 ^ w - 1) >>> Nat.clog 2 s)

/-- js_pod_malloc (source lines 370-377) for a w-bit size_t and an
element type of size s: reject counts that intersect the overflow mask,
else forward count * s (size_t product) to js_malloc. -/
def js_pod_malloc (w s count : Nat) : Option Nat :=
  if count &&& MulOverflowMask w s ≠ 0 then none
  else some (count * s % 2 ^ w)

/-- js_pod_calloc (source lines 379-386), same check, forwarding to
js_calloc. -/
def js_pod_calloc (w s count : Nat) : Option Nat :=
  if count &&& MulOverflowMask w s ≠ 0 then none
  else some (count * s % 2 ^ w)

/-! ## Typed construction helper (lines 176-178 and 333)

JS_NEW_BODY(allocator, t, parms) evaluates allocator(sizeof(t)) and,
only when the result is non-null, placement-constructs a t from parms in
the returned memory; on null it returns nullptr without constructing.
The twelve macro arities all share this body; the argument tuple is
modelled as a single value of an arbitrary type Args.  The second
component counts constructor invocations. -/

/-- JS_NEW_BODY / js_new: alloc is the allocator outcome (none models a
null return), ctor args is the fully constructed value.  Result: the
constructed object at its address (or none), paired with the number of
constructor invocations performed. -/
def js_new (T Args : Type) (alloc : Nat → Option Nat) (szT : Nat)
    (ctor : Args → T) (args : Args) : Option (Nat × T) × Nat :=
  match alloc szT with
  | none => (none, 0)
  | some m => (some (m, ctor args), 1)

/-! ## Destruction helpers (lines 335-354)

js_delete(p): if p is non-null, run the destructor, then js_free(p).
js_delete_poison(p): if p is non-null, run the destructor, then
memset(p, 0x3B, sizeof(T)), then js_free(p).  Both are no-ops on null.
The helpers are modelled as the sequence of memory events they perform;
an interpreter applies the memset events to the object bytes. -/

/-- One observable action of the destruction helpers. -/
inductive MemEvent where
  | dtorCall : MemEvent
  | memsetCall (c : Nat) (n : Nat) : MemEvent
  | freeCall : MemEvent
deriving DecidableEq

/-- C library memset semantics on a byte list: overwrite the first n
bytes with c. -/
def memset (mem : List Nat) (c : Nat) (n : Nat) : List Nat :=
  List.replicate (min n mem.length) c ++ mem.drop n

/-- js_delete (source lines 335-343): destructor then free on non-null,
nothing on null. -/
def js_delete (p : Option Nat) : List MemEvent :=
  match p with
  | none => []
  | some _ => [MemEvent.dtorCall, MemEvent.freeCall]

/-- js_delete_poison (source lines 345-354): destructor, then
memset(p, 0x3B, sizeof(T)), then free on non-null; nothing on null.
size is sizeof(T). -/
def js_delete_poison (p : Option Nat) (size : Nat) : List MemEvent :=
  match p with
  | none => []
  | some _ =>
      [MemEvent.dtorCall, MemEvent.memsetCall jsDeletePoisonByte size,
       MemEvent.freeCall]

/-- Apply the store effects of an event sequence to the object bytes. -/
def runMemEvents (mem : List Nat) (evs : List MemEvent) : List Nat :=
  evs.foldl
    (fun m e =>
      match e with
      | MemEvent.memsetCall c n => memset m c n
      | _ => m)
    mem

/-! ## Scoped ownership wrappers (lines 388-413)

The three trait structures in src (ScopedFreePtrTraits releasing through
js_free, ScopedDeletePtrTraits releasing through js_delete,
ScopedReleasePtrTraits calling the owned object's own release method)
are plugged into SCOPED_TEMPLATE. -/

/-- The three release policies defined in src lines 388-411. -/
inductive ReleaseKind where
  | rawFree : ReleaseKind
  | typedDelete : ReleaseKind
  | methodRelease : ReleaseKind
deriving DecidableEq

/-- Modelled from the spec: SCOPED_TEMPLATE / mozilla::Scoped comes from
mozilla/Scoped.h, which is not under src/.  Per the spec the wrapper
holds at most one live pointer (empty is the traits empty value,
nullptr, modelled as none). -/
structure Scoped where
  val : Option Nat
deriving DecidableEq

/-- Modelled from the spec: constructing a wrapper owning v. -/
def Scoped.ctorOwning (v : Nat) : Scoped := ⟨some v⟩

/-- Modelled from the spec: explicit release-and-forget returns the raw
value and clears the handle. -/
def Scoped.forget (s : Scoped) : Option Nat × Scoped := (s.val, ⟨none⟩)

/-- Modelled from the spec: move-transfer; the destination takes the
value and the source is nulled.  Result is (destination, source after
the move). -/
def Scoped.moveFrom (s : Scoped) : Scoped × Scoped := (⟨s.val⟩, ⟨none⟩)

/-- Modelled from the spec: wrapper destruction invokes the configured
release policy on the owned value exactly when the handle is non-empty.
The result lists the release-policy invocations performed, tagged with
the policy (the three src trait release functions each release a
non-null pointer exactly once; ScopedReleasePtrTraits guards with a
non-null test that the destructor-side emptiness test already
implies). -/
def Scoped.dtorReleases (k : ReleaseKind) (s : Scoped) : List (ReleaseKind × Nat) :=
  match s.val with
  | none => []
  | some v => [(k, v)]

/-! ## Hash scrambler (lines 438-458) -/

/-- ScrambleHashCode: multiply by the golden-ratio constant 0x9E3779B9
in uint32_t arithmetic (source line 456-457). -/
def ScrambleHashCode (h : Nat) : Nat :=
  h * 0x9E3779B9 % 2 ^ 32

/-! ## Pointer poisoning (lines 477-494)

When JSGC_ROOT_ANALYSIS and JS_DEBUG are both defined, PoisonPtr stores
the sentinel byte through ((uint8_t*) v) + 3, i.e. into the byte holding
bits 24..31 of the pointer word on the little-endian targets the engine
runs on, and IsPoisonedPtr compares uintptr_t(v) & 0xff000000 against
the sentinel shifted into bits 24..31 (as uint32_t values).  Otherwise
PoisonPtr does nothing and IsPoisonedPtr returns false.  The sentinel
JS_FREE_PATTERN is defined outside this file, so it is kept as the
parameter pat (a byte value). -/

/-- PoisonPtr: when enabled, overwrite the byte holding bits 24..31 of
the pointer word with the sentinel byte (little-endian layout of
((uint8_t*) v)[3]); otherwise the word is unchanged. -/
def PoisonPtr (enabled : Bool) (pat v : Nat) : Nat :=
  if enabled then v / 2 ^ 32 * 2 ^ 32 + pat % 2 ^ 8 * 2 ^ 24 + v % 2 ^ 24
  else v

/-- IsPoisonedPtr: when enabled, test uintptr_t(v) & 0xff000000 ==
uint32_t(pat << 24); otherwise false. -/
def IsPoisonedPtr (enabled : Bool) (pat v : Nat) : Bool :=
  if enabled then (v &&& 0xff000000) == (pat <<< 24) % 2 ^ 32
  else false

/-! ## Helper lemmas -/

theorem land_extract (a b v : Nat) :
    v &&& (2 ^ (a + b) - 2 ^ a) = v / 2 ^ a % 2 ^ b * 2 ^ a := by
  have hmask : 2 ^ (a + b) - 2 ^ a = (2 ^ b - 1) <<< a := by
    rw [Nat.shiftLeft_eq, Nat.sub_mul, one_mul, ← pow_add, Nat.add_comm b a]
  have hrhs : v / 2 ^ a % 2 ^ b * 2 ^ a = ((v >>> a) % 2 ^ b) <<< a := by
    rw [Nat.shiftLeft_eq, Nat.shiftRight_eq_div_pow]
  rw [hmask, hrhs]
  apply Nat.eq_of_testBit_eq
  intro i
  simp only [Nat.testBit_land, Nat.testBit_shiftLeft, Nat.testBit_mod_two_pow,
    Nat.testBit_two_pow_sub_one, Nat.testBit_shiftRight]
  rcases Nat.lt_or_ge i a with h | h
  · simp [Nat.not_le.mpr h]
  · have h2 : a + (i - a) = i := by omega
    have hd : decide (i ≥ a) = true := by simp [h]
    simp only [hd, Bool.true_and, h2]
    cases hv : v.testBit i <;> cases hde : decide (i - a < b) <;> simp

theorem all_ones_shiftRight (w l : Nat) (h : l ≤ w) :
    (2 ^ w - 1) >>> l = 2 ^ (w - l) - 1 := by
  rw [Nat.shiftRight_eq_div_pow]
  have hw : 2 ^ w = 2 ^ l * 2 ^ (w - l) := by
    rw [← pow_add]
    congr 1
    omega
  have hl : 0 < 2 ^ l := Nat.two_pow_pos l
  have hwl : 0 < 2 ^ (w - l) := Nat.two_pow_pos (w - l)
  have h1 : 2 ^ l * (2 ^ (w - l) - 1) = 2 ^ l * 2 ^ (w - l) - 2 ^ l := by
    rw [Nat.mul_sub, Nat.mul_one]
  have h2 : 2 ^ w - 1 = 2 ^ l * (2 ^ (w - l) - 1) + (2 ^ l - 1) := by
    rw [h1, hw]
    have : 2 ^ l ≤ 2 ^ l * 2 ^ (w - l) := Nat.le_mul_of_pos_right _ hwl
    omega
  rw [h2, Nat.mul_add_div hl, Nat.div_eq_of_lt (by omega)]
  omega

theorem MulOverflowMask_two_pow (w l : Nat) (h : l ≤ w) :
    MulOverflowMask w (2 ^ l) = 2 ^ ((w - l) + l) - 2 ^ (w - l) := by
  rw [MulOverflowMask, Nat.clog_pow 2 l (by norm_num), all_ones_shiftRight w l h]
  have h1 : 1 ≤ 2 ^ (w - l) := Nat.one_le_two_pow
  have h2 : 2 ^ (w - l) ≤ 2 ^ w := Nat.pow_le_pow_right (by norm_num) (by omega)
  have h3 : (w - l) + l = w := by omega
  rw [h3]
  omega

theorem land_mask_eq_zero_iff (w l count : Nat) (hl : l ≤ w) (hc : count < 2 ^ w) :
    count &&& MulOverflowMask w (2 ^ l) = 0 ↔ count < 2 ^ (w - l) := by
  rw [MulOverflowMask_two_pow w l hl, land_extract (w - l) l count]
  have hwl : 0 < 2 ^ (w - l) := Nat.two_pow_pos (w - l)
  have hdivlt : count / 2 ^ (w - l) < 2 ^ l := by
    rw [Nat.div_lt_iff_lt_mul hwl]
    calc count < 2 ^ w := hc
    _ = 2 ^ l * 2 ^ (w - l) := by rw [← pow_add]; congr 1; omega
  rw [Nat.mod_eq_of_lt hdivlt]
  constructor
  · intro h
    rcases Nat.mul_eq_zero.mp h with h0 | h0
    · exact (Nat.div_eq_zero_iff hwl).mp h0
    · omega
  · intro h
    rw [Nat.div_eq_of_lt h, Nat.zero_mul]

theorem oomCheck_fst (s : OOMState) :
    (oomCheck s).1 = ⟨(s.counter + 1) % 2 ^ 32, s.maxAllocations⟩ := by
  rw [oomCheck]
  split <;> rfl

theorem oomCheck_snd (s : OOMState) :
    (oomCheck s).2 = decide ((s.counter + 1) % 2 ^ 32 ≤ s.maxAllocations) := by
  rw [oomCheck]
  split <;> rename_i hc <;> symm <;> simp <;> omega

theorem oomRun_apply (N n : Nat) : oomRun n ⟨0, N⟩ = ⟨n % 2 ^ 32, N⟩ := by
  induction n with
  | zero => simp [oomRun]
  | succ n ih =>
      show (oomCheck (oomRun n ⟨0, N⟩)).1 = _
      rw [ih, oomCheck_fst]
      have h1 : (1 : Nat) % 2 ^ 32 = 1 := Nat.mod_eq_of_lt (by norm_num)
      have h2 : (n % 2 ^ 32 + 1) % 2 ^ 32 = (n + 1) % 2 ^ 32 := by
        rw [Nat.add_mod n 1 (2 ^ 32), h1]
      simp [h2]

theorem js_malloc_eq (s : OOMState) (b : Nat) :
    js_malloc s b = ((oomCheck s).1, if (oomCheck s).2 then some b else none) := by
  rw [js_malloc]
  rcases h : oomCheck s with ⟨s1, ok⟩
  cases ok <;> simp

theorem js_calloc_eq (s : OOMState) (b : Nat) :
    js_calloc s b = ((oomCheck s).1, if (oomCheck s).2 then some (b, 1) else none) := by
  rw [js_calloc]
  rcases h : oomCheck s with ⟨s1, ok⟩
  cases ok <;> simp

theorem js_calloc2_eq (s : OOMState) (n b : Nat) :
    js_calloc2 s n b = ((oomCheck s).1, if (oomCheck s).2 then some (n, b) else none) := by
  rw [js_calloc2]
  rcases h : oomCheck s with ⟨s1, ok⟩
  cases ok <;> simp

theorem js_realloc_eq (s : OOMState) (p b : Nat) :
    js_realloc s p b = ((oomCheck s).1, if (oomCheck s).2 then some (p, b) else none) := by
  rw [js_realloc]
  rcases h : oomCheck s with ⟨s1, ok⟩
  cases ok <;> simp

theorem oomAttempt_eq (N i : Nat) :
    oomAttempt N i = decide ((i + 1) % 2 ^ 32 ≤ N) := by
  rw [oomAttempt, oomRun_apply, oomCheck_snd]
  have h1 : (1 : Nat) % 2 ^ 32 = 1 := Nat.mod_eq_of_lt (by norm_num)
  rw [show (i % 2 ^ 32 + 1) % 2 ^ 32 = (i + 1) % 2 ^ 32 by rw [Nat.add_mod i 1 (2 ^ 32), h1]]

theorem pow_split (w l : Nat) (hl : l ≤ w) : 2 ^ w = 2 ^ (w - l) * 2 ^ l := by
  rw [← pow_add]
  congr 1
  omega

theorem lt_pow_iff_mul_lt (w l c : Nat) (hl : l ≤ w) :
    c < 2 ^ (w - l) ↔ c * 2 ^ l < 2 ^ w := by
  rw [pow_split w l hl]
  exact (Nat.mul_lt_mul_right (Nat.two_pow_pos l)).symm

theorem pod_two_pow_none_iff (w l count : Nat) (hl : l ≤ w) (hc : count < 2 ^ w) :
    (js_pod_malloc w (2 ^ l) count = none ↔ 2 ^ w ≤ count * 2 ^ l)
    ∧ (js_pod_calloc w (2 ^ l) count = none ↔ 2 ^ w ≤ count * 2 ^ l) := by
  have hiff : count &&& MulOverflowMask w (2 ^ l) = 0 ↔ count * 2 ^ l < 2 ^ w :=
    (land_mask_eq_zero_iff w l count hl hc).trans (lt_pow_iff_mul_lt w l count hl)
  by_cases h : count &&& MulOverflowMask w (2 ^ l) = 0
  · have hlt : count * 2 ^ l < 2 ^ w := hiff.mp h
    rw [js_pod_malloc, js_pod_calloc, if_neg (by simp [h])]
    simp [Nat.not_le.mpr hlt]
  · have hge : 2 ^ w ≤ count * 2 ^ l := Nat.not_lt.mp (fun hlt => h (hiff.mpr hlt))
    rw [js_pod_malloc, js_pod_calloc, if_pos h]
    simp [hge]

theorem pod_two_pow_boundary (w l : Nat) (hl : l ≤ w) :
    (2 ^ w / 2 ^ l - 1) * 2 ^ l < 2 ^ w
    ∧ js_pod_malloc w (2 ^ l) (2 ^ w / 2 ^ l - 1)
        = some ((2 ^ w / 2 ^ l - 1) * 2 ^ l)
    ∧ js_pod_calloc w (2 ^ l) (2 ^ w / 2 ^ l - 1)
        = some ((2 ^ w / 2 ^ l - 1) * 2 ^ l)
    ∧ 2 ^ w ≤ (2 ^ w / 2 ^ l - 1 + 1) * 2 ^ l
    ∧ (0 < l →
        js_pod_malloc w (2 ^ l) (2 ^ w / 2 ^ l - 1 + 1) = none
        ∧ js_pod_calloc w (2 ^ l) (2 ^ w / 2 ^ l - 1 + 1) = none) := by
  have hq : 2 ^ w / 2 ^ l = 2 ^ (w - l) := Nat.pow_div hl (by norm_num)
  have h1 : 1 ≤ 2 ^ (w - l) := Nat.one_le_two_pow
  have hMlt : 2 ^ w / 2 ^ l - 1 < 2 ^ (w - l) := by omega
  have hMw : 2 ^ w / 2 ^ l - 1 < 2 ^ w := by
    have : 2 ^ (w - l) ≤ 2 ^ w := Nat.pow_le_pow_right (by norm_num) (by omega)
    omega
  have hset : 2 ^ w / 2 ^ l - 1 + 1 = 2 ^ (w - l) := by omega
  have hMland : (2 ^ w / 2 ^ l - 1) &&& MulOverflowMask w (2 ^ l) = 0 :=
    (land_mask_eq_zero_iff w l _ hl hMw).mpr hMlt
  have hMmul : (2 ^ w / 2 ^ l - 1) * 2 ^ l < 2 ^ w :=
    (lt_pow_iff_mul_lt w l _ hl).mp hMlt
  refine ⟨hMmul, ?_, ?_, ?_, ?_⟩
  · rw [js_pod_malloc, if_neg (by simp [hMland]), Nat.mod_eq_of_lt hMmul]
  · rw [js_pod_calloc, if_neg (by simp [hMland]), Nat.mod_eq_of_lt hMmul]
  · rw [hset, ← pow_split w l hl]
  · intro hlpos
    have hlt : w - l < w := by omega
    have hup : 2 ^ (w - l) < 2 ^ w := Nat.pow_lt_pow_right (by norm_num) hlt
    have hland : ¬ ((2 ^ w / 2 ^ l - 1 + 1) &&& MulOverflowMask w (2 ^ l) = 0) := by
      rw [hset]
      intro h0
      have := (land_mask_eq_zero_iff w l _ hl hup).mp h0
      omega
    constructor
    · rw [js_pod_malloc, if_pos hland]
    · rw [js_pod_calloc, if_pos hland]

/-! ## Claim theorems -/

/-- C1 (amended): starting from counter 0 with threshold N, the (i+1)-th
sequential gated attempt passes the injector check exactly when
(i+1) mod 2^32 is at most N; hence exactly the first N attempts pass and
later attempts fail as long as the total number of attempts stays below
2^32, but the uint32_t counter wraps after 2^32 attempts.  Each of
js_malloc, both js_calloc overloads and js_realloc forwards its request
to the backend exactly when the check passes, returns null without a
backend call otherwise, and performs exactly the oomCheck state
update. -/
theorem oom_injector_threshold_behavior (N i bytes nmemb sz p rbytes : Nat) :
    (oomAttempt N i = true ↔ (i + 1) % 2 ^ 32 ≤ N)
    ∧ (js_malloc (oomRun i ⟨0, N⟩) bytes).2
        = (if (i + 1) % 2 ^ 32 ≤ N then some bytes else none)
    ∧ (js_calloc (oomRun i ⟨0, N⟩) bytes).2
        = (if (i + 1) % 2 ^ 32 ≤ N then some (bytes, 1) else none)
    ∧ (js_calloc2 (oomRun i ⟨0, N⟩) nmemb sz).2
        = (if (i + 1) % 2 ^ 32 ≤ N then some (nmemb, sz) else none)
    ∧ (js_realloc (oomRun i ⟨0, N⟩) p rbytes).2
        = (if (i + 1) % 2 ^ 32 ≤ N then some (p, rbytes) else none)
    ∧ (js_malloc (oomRun i ⟨0, N⟩) bytes).1 = oomRun (i + 1) ⟨0, N⟩
    ∧ (js_calloc (oomRun i ⟨0, N⟩) bytes).1 = oomRun (i + 1) ⟨0, N⟩
    ∧ (js_calloc2 (oomRun i ⟨0, N⟩) nmemb sz).1 = oomRun (i + 1) ⟨0, N⟩
    ∧ (js_realloc (oomRun i ⟨0, N⟩) p rbytes).1 = oomRun (i + 1) ⟨0, N⟩ := by
  have hsnd : (oomCheck (oomRun i ⟨0, N⟩)).2 = decide ((i + 1) % 2 ^ 32 ≤ N) :=
    oomAttempt_eq N i
  refine ⟨?_, ?_, ?_, ?_, ?_, ?_, ?_, ?_, ?_⟩
  · rw [oomAttempt_eq]
    simp
  · rw [js_malloc_eq, hsnd]
    by_cases hP : (i + 1) % 2 ^ 32 ≤ N <;> simp [hP]
  · rw [js_calloc_eq, hsnd]
    by_cases hP : (i + 1) % 2 ^ 32 ≤ N <;> simp [hP]
  · rw [js_calloc2_eq, hsnd]
    by_cases hP : (i + 1) % 2 ^ 32 ≤ N <;> simp [hP]
  · rw [js_realloc_eq, hsnd]
    by_cases hP : (i + 1) % 2 ^ 32 ≤ N <;> simp [hP]
  · rw [js_malloc_eq]
    rfl
  · rw [js_calloc_eq]
    rfl
  · rw [js_calloc2_eq]
    rfl
  · rw [js_realloc_eq]
    rfl

/-- C1 counterexample: with threshold 0 the claim requires every gated
attempt to fail until the state is reset, but the 2^32-th sequential
attempt passes the injector check again because the uint32_t counter
wraps to 0, and js_malloc forwards the request to the backend. -/
theorem oom_injector_wraparound_counterexample :
    oomAttempt 0 (2 ^ 32 - 1) = true
    ∧ (js_malloc (oomRun (2 ^ 32 - 1) ⟨0, 0⟩) 16).2 = some 16 := by
  have h : ((2 ^ 32 - 1 : Nat) + 1) % 2 ^ 32 ≤ 0 := by norm_num
  have hsnd : (oomCheck (oomRun (2 ^ 32 - 1) ⟨0, 0⟩)).2 = true := by
    have he := oomAttempt_eq 0 (2 ^ 32 - 1)
    rw [oomAttempt] at he
    rw [he]
    simp [h]
  constructor
  · rw [oomAttempt_eq]
    simp [h]
  · rw [js_malloc_eq, hsnd]
    simp

/-- C2: for element sizes 1, 4, 8 and 16 and a w-bit size_t,
js_pod_malloc and js_pod_calloc report failure without invoking the
backend exactly when count * size overflows the size type; the maximal
fitting count is forwarded to the backend and count + 1 at that boundary
is rejected without a backend call (for size 1 the maximal fitting count
is the maximal size_t value, so count + 1 is not representable and the
boundary clause is guarded by 1 < size). -/
theorem js_pod_overflow_guard (w s count : Nat) (hw : 4 ≤ w)
    (hs : s = 1 ∨ s = 4 ∨ s = 8 ∨ s = 16) (hcount : count < 2 ^ w) :
    (js_pod_malloc w s count = none ↔ 2 ^ w ≤ count * s)
    ∧ (js_pod_calloc w s count = none ↔ 2 ^ w ≤ count * s)
    ∧ (2 ^ w / s - 1) * s < 2 ^ w
    ∧ js_pod_malloc w s (2 ^ w / s - 1) = some ((2 ^ w / s - 1) * s)
    ∧ js_pod_calloc w s (2 ^ w / s - 1) = some ((2 ^ w / s - 1) * s)
    ∧ 2 ^ w ≤ (2 ^ w / s - 1 + 1) * s
    ∧ (1 < s →
        js_pod_malloc w s (2 ^ w / s - 1 + 1) = none
        ∧ js_pod_calloc w s (2 ^ w / s - 1 + 1) = none) := by
  have main : ∀ l : Nat, l ≤ w → s = 2 ^ l →
      (js_pod_malloc w s count = none ↔ 2 ^ w ≤ count * s)
      ∧ (js_pod_calloc w s count = none ↔ 2 ^ w ≤ count * s)
      ∧ (2 ^ w / s - 1) * s < 2 ^ w
      ∧ js_pod_malloc w s (2 ^ w / s - 1) = some ((2 ^ w / s - 1) * s)
      ∧ js_pod_calloc w s (2 ^ w / s - 1) = some ((2 ^ w / s - 1) * s)
      ∧ 2 ^ w ≤ (2 ^ w / s - 1 + 1) * s
      ∧ (1 < s →
          js_pod_malloc w s (2 ^ w / s - 1 + 1) = none
          ∧ js_pod_calloc w s (2 ^ w / s - 1 + 1) = none) := by
    intro l hl hsl
    subst hsl
    obtain ⟨h1, h2⟩ := pod_two_pow_none_iff w l count hl hcount
    obtain ⟨b1, b2, b3, b4, b5⟩ := pod_two_pow_boundary w l hl
    refine ⟨h1, h2, b1, b2, b3, b4, ?_⟩
    intro hs1
    have hl0 : 0 < l := by
      by_contra h0
      have hl0 : l = 0 := by omega
      rw [hl0] at hs1
      norm_num at hs1
    exact b5 hl0
  rcases hs with h | h | h | h
  · exact main 0 (by omega) (by rw [h]; norm_num)
  · exact main 2 (by omega) (by rw [h]; norm_num)
  · exact main 3 (by omega) (by rw [h]; norm_num)
  · exact main 4 (by omega) (by rw [h]; norm_num)

/-- C2 witness: the overflow-guard theorem applied at a 64-bit size
type, element size 16 and count 12345. -/
theorem js_pod_overflow_guard_witness :
    4 ≤ 64
    ∧ ((16 : Nat) = 1 ∨ (16 : Nat) = 4 ∨ (16 : Nat) = 8 ∨ (16 : Nat) = 16)
    ∧ (12345 : Nat) < 2 ^ 64
    ∧ ((js_pod_malloc 64 16 12345 = none ↔ 2 ^ 64 ≤ 12345 * 16)
      ∧ (js_pod_calloc 64 16 12345 = none ↔ 2 ^ 64 ≤ 12345 * 16)
      ∧ (2 ^ 64 / 16 - 1) * 16 < 2 ^ 64
      ∧ js_pod_malloc 64 16 (2 ^ 64 / 16 - 1) = some ((2 ^ 64 / 16 - 1) * 16)
      ∧ js_pod_calloc 64 16 (2 ^ 64 / 16 - 1) = some ((2 ^ 64 / 16 - 1) * 16)
      ∧ 2 ^ 64 ≤ (2 ^ 64 / 16 - 1 + 1) * 16
      ∧ ((1 : Nat) < 16 →
          js_pod_malloc 64 16 (2 ^ 64 / 16 - 1 + 1) = none
          ∧ js_pod_calloc 64 16 (2 ^ 64 / 16 - 1 + 1) = none)) :=
  ⟨by norm_num, by norm_num, by norm_num,
    js_pod_overflow_guard 64 16 12345 (by norm_num) (by norm_num) (by norm_num)⟩

/-- C10: a zero element count always passes the overflow check, for
every element size and size-type width, and a zero-byte request is
forwarded to the backend. -/
theorem js_pod_zero_count (w s : Nat) :
    js_pod_malloc w s 0 = some 0 ∧ js_pod_calloc w s 0 = some 0 := by
  have hz : (0 : Nat) &&& MulOverflowMask w s = 0 := Nat.zero_and _
  rw [js_pod_malloc, js_pod_calloc, if_neg (by simp [hz])]
  simp

/-- C3: ScrambleHashCode is the pure total function multiplying by the
golden-ratio constant 0x9E3779B9 modulo 2^32, and its result is always a
32-bit value; as a Lean function it is trivially deterministic and
stateless. -/
theorem scramble_hash_code_spec (h : Nat) :
    ScrambleHashCode h = h * 0x9E3779B9 % 2 ^ 32 ∧ ScrambleHashCode h < 2 ^ 32 :=
  ⟨rfl, Nat.mod_lt _ (by norm_num)⟩

/-- C4: for every element type, argument-tuple type (covering the macro
arities 0 through 12) and allocator outcome, js_new returns the fully
constructed value exactly when the allocation succeeded, and performs
zero constructor invocations when the allocation returned null and
exactly one otherwise -- never a partial construction and never a
construction into a null allocation. -/
theorem js_new_fully_constructs_or_null (T Args : Type) (alloc : Nat → Option Nat)
    (szT : Nat) (ctor : Args → T) (args : Args) :
    (js_new T Args alloc szT ctor args).1
        = Option.map (fun m => (m, ctor args)) (alloc szT)
    ∧ (js_new T Args alloc szT ctor args).2
        = Option.elim (alloc szT) 0 (fun _ => 1) := by
  unfold js_new
  cases halloc : alloc szT <;> simp [halloc]

/-- C5: for a non-null pointer, js_delete_poison runs the destructor
first, then overwrites every one of the sizeof(T) object bytes with the
sentinel byte 0x3B, and only then frees the memory; on null it does
nothing. -/
theorem js_delete_poison_spec (a size : Nat) (mem : List Nat)
    (h : mem.length = size) :
    runMemEvents mem (js_delete_poison (some a) size)
        = List.replicate size jsDeletePoisonByte
    ∧ js_delete_poison (some a) size
        = [MemEvent.dtorCall, MemEvent.memsetCall jsDeletePoisonByte size,
           MemEvent.freeCall]
    ∧ js_delete_poison none size = [] := by
  subst h
  refine ⟨?_, rfl, rfl⟩
  simp [runMemEvents, js_delete_poison, memset, List.foldl]

/-- C5 witness: the poisoning theorem applied to a three-byte object. -/
theorem js_delete_poison_spec_witness :
    ([5, 6, 7] : List Nat).length = 3
    ∧ (runMemEvents [5, 6, 7] (js_delete_poison (some 1) 3)
        = List.replicate 3 jsDeletePoisonByte
      ∧ js_delete_poison (some 1) 3
          = [MemEvent.dtorCall, MemEvent.memsetCall jsDeletePoisonByte 3,
             MemEvent.freeCall]
      ∧ js_delete_poison none 3 = []) :=
  ⟨rfl, js_delete_poison_spec 1 3 [5, 6, 7] rfl⟩

/-- C6: js_delete on null performs no destruction and no release; on a
non-null pointer it performs exactly one destructor call followed by
exactly one release, with the destruction strictly before the
release. -/
theorem js_delete_spec (a : Nat) :
    js_delete none = []
    ∧ js_delete (some a) = [MemEvent.dtorCall, MemEvent.freeCall]
    ∧ (js_delete (some a)).count MemEvent.dtorCall = 1
    ∧ (js_delete (some a)).count MemEvent.freeCall = 1
    ∧ (js_delete (some a)).indexOf MemEvent.dtorCall
        < (js_delete (some a)).indexOf MemEvent.freeCall := by
  refine ⟨rfl, rfl, ?_, ?_, ?_⟩
  · show List.count MemEvent.dtorCall [MemEvent.dtorCall, MemEvent.freeCall] = 1
    decide
  · show List.count MemEvent.freeCall [MemEvent.dtorCall, MemEvent.freeCall] = 1
    decide
  · show List.indexOf MemEvent.dtorCall [MemEvent.dtorCall, MemEvent.freeCall]
        < List.indexOf MemEvent.freeCall [MemEvent.dtorCall, MemEvent.freeCall]
    decide

/-- C7: for each of the three release policies, destroying a wrapper
that owns v invokes the policy on v exactly once; release-and-forget
returns v, nulls the handle and makes later destruction release
nothing; a move nulls the source (zero releases there) and the
destination releases v exactly once when destroyed. -/
theorem scoped_wrapper_release_once (k : ReleaseKind) (v : Nat) :
    Scoped.dtorReleases k (Scoped.ctorOwning v) = [(k, v)]
    ∧ (Scoped.forget (Scoped.ctorOwning v)).1 = some v
    ∧ Scoped.dtorReleases k (Scoped.forget (Scoped.ctorOwning v)).2 = []
    ∧ (Scoped.moveFrom (Scoped.ctorOwning v)).2.val = none
    ∧ Scoped.dtorReleases k (Scoped.moveFrom (Scoped.ctorOwning v)).2 = []
    ∧ Scoped.dtorReleases k (Scoped.moveFrom (Scoped.ctorOwning v)).1 = [(k, v)] :=
  ⟨rfl, rfl, rfl, rfl, rfl, rfl⟩

/-- C8 counterexample: on a 64-bit pointer whose second-most-significant
byte (bits 48..55) holds the sentinel 0xDA, IsPoisonedPtr in the enabled
configuration returns false, because the code tests bits 24..31
(the mask 0xff000000), not the second-most-significant byte. -/
theorem is_poisoned_ptr_counterexample :
    0xDA000000000000 / 2 ^ 48 % 2 ^ 8 = 0xDA
    ∧ IsPoisonedPtr true 0xDA 0xDA000000000000 = false := by
  decide

/-- C8 (amended): in the enabled configuration PoisonPtr overwrites
exactly the byte holding bits 24..31 of the pointer word (the
most-significant byte of a 32-bit pointer, the fourth-least-significant
byte of a 64-bit pointer) with the sentinel, leaving all other bits
unchanged, and IsPoisonedPtr returns true exactly when bits 24..31 equal
the sentinel; with the analysis disabled PoisonPtr is the identity and
IsPoisonedPtr is constantly false. -/
theorem poison_ptr_targets_bits_24_31 (pat v : Nat) (hpat : pat < 2 ^ 8) :
    (IsPoisonedPtr true pat v = true ↔ v / 2 ^ 24 % 2 ^ 8 = pat)
    ∧ PoisonPtr true pat v / 2 ^ 24 % 2 ^ 8 = pat
    ∧ PoisonPtr true pat v % 2 ^ 24 = v % 2 ^ 24
    ∧ PoisonPtr true pat v / 2 ^ 32 = v / 2 ^ 32
    ∧ IsPoisonedPtr true pat (PoisonPtr true pat v) = true
    ∧ PoisonPtr false pat v = v
    ∧ IsPoisonedPtr false pat v = false := by
  have hshift : (pat <<< 24) % 2 ^ 32 = pat * 2 ^ 24 := by
    rw [Nat.shiftLeft_eq]
    apply Nat.mod_eq_of_lt
    have h1 : pat * 2 ^ 24 < 2 ^ 8 * 2 ^ 24 :=
      Nat.mul_lt_mul_right (Nat.two_pow_pos 24) |>.mpr hpat
    calc pat * 2 ^ 24 < 2 ^ 8 * 2 ^ 24 := h1
    _ = 2 ^ 32 := by norm_num
  have hland : ∀ x : Nat, x &&& 0xff000000 = x / 2 ^ 24 % 2 ^ 8 * 2 ^ 24 := by
    intro x
    rw [show (0xff000000 : Nat) = 2 ^ (24 + 8) - 2 ^ 24 by norm_num]
    exact land_extract 24 8 x
  have hiff : ∀ x : Nat, IsPoisonedPtr true pat x = true ↔ x / 2 ^ 24 % 2 ^ 8 = pat := by
    intro x
    rw [IsPoisonedPtr, if_pos rfl, beq_iff_eq, hland x, hshift]
    constructor
    · intro hx
      exact Nat.eq_of_mul_eq_mul_right (Nat.two_pow_pos 24) hx
    · intro hx
      rw [hx]
  have hP : PoisonPtr true pat v
      = v / 2 ^ 32 * 2 ^ 32 + pat * 2 ^ 24 + v % 2 ^ 24 := by
    rw [PoisonPtr, if_pos rfl, Nat.mod_eq_of_lt hpat]
  have hr : v % 2 ^ 24 < 2 ^ 24 := Nat.mod_lt _ (Nat.two_pow_pos 24)
  have hb1 : PoisonPtr true pat v / 2 ^ 24 % 2 ^ 8 = pat := by
    rw [hP]
    simp only [show (2 : Nat) ^ 24 = 16777216 from by norm_num,
      show (2 : Nat) ^ 32 = 4294967296 from by norm_num,
      show (2 : Nat) ^ 8 = 256 from by norm_num] at hpat hr ⊢
    omega
  refine ⟨hiff v, hb1, ?_, ?_, (hiff _).mpr hb1, rfl, rfl⟩
  · rw [hP]
    simp only [show (2 : Nat) ^ 24 = 16777216 from by norm_num,
      show (2 : Nat) ^ 32 = 4294967296 from by norm_num,
      show (2 : Nat) ^ 8 = 256 from by norm_num] at hpat hr ⊢
    omega
  · rw [hP]
    simp only [show (2 : Nat) ^ 24 = 16777216 from by norm_num,
      show (2 : Nat) ^ 32 = 4294967296 from by norm_num,
      show (2 : Nat) ^ 8 = 256 from by norm_num] at hpat hr ⊢
    omega

/-- C8 witness: the amended poisoning theorem applied to the sentinel
0xDA and the pointer value 0x12345678. -/
theorem poison_ptr_targets_bits_24_31_witness :
    (0xDA : Nat) < 2 ^ 8
    ∧ ((IsPoisonedPtr true 0xDA 0x12345678 = true
          ↔ 0x12345678 / 2 ^ 24 % 2 ^ 8 = 0xDA)
      ∧ PoisonPtr true 0xDA 0x12345678 / 2 ^ 24 % 2 ^ 8 = 0xDA
      ∧ PoisonPtr true 0xDA 0x12345678 % 2 ^ 24 = 0x12345678 % 2 ^ 24
      ∧ PoisonPtr true 0xDA 0x12345678 / 2 ^ 32 = 0x12345678 / 2 ^ 32
      ∧ IsPoisonedPtr true 0xDA (PoisonPtr true 0xDA 0x12345678) = true
      ∧ PoisonPtr false 0xDA 0x12345678 = 0x12345678
      ∧ IsPoisonedPtr false 0xDA 0x12345678 = false) :=
  ⟨by norm_num, poison_ptr_targets_bits_24_31 0xDA 0x12345678 (by norm_num)⟩

/-- C9 counterexample: the byte written by js_delete_poison equals
JS_SWEPT_CODE_PATTERN (both are 0x3B), so the lifecycle sentinel byte
values are not pairwise distinct and a byte value does not identify a
unique lifecycle state. -/
theorem sentinel_pattern_collision :
    jsDeletePoisonByte = JS_SWEPT_CODE_PATTERN ∧ jsDeletePoisonByte = 0x3B :=
  ⟨rfl, rfl⟩

/-- C9 (amended): the eight sentinel byte patterns defined in this file
are pairwise distinct, but the poisoned-on-delete byte written by
js_delete_poison reuses the swept-code value 0x3B (the
stale-stack-pointer byte JS_FREE_PATTERN is defined outside this
file). -/
theorem sentinel_patterns_distinct_except_delete_poison :
    List.Pairwise (fun x y => x ≠ y)
      [JS_FRESH_NURSERY_PATTERN, JS_SWEPT_NURSERY_PATTERN,
       JS_ALLOCATED_NURSERY_PATTERN, JS_FRESH_TENURED_PATTERN,
       JS_SWEPT_TENURED_PATTERN, JS_ALLOCATED_TENURED_PATTERN,
       JS_SWEPT_CODE_PATTERN, JS_SWEPT_FRAME_PATTERN]
    ∧ jsDeletePoisonByte = JS_SWEPT_CODE_PATTERN := by
  constructor
  · decide
  · rfl
